import Mathlib

/-
  Shallow embedding of src/app.py (gitAuto), a CLI helper that manages a
  GitHub repository lifecycle: credential store, repo-name validation,
  create/delete/push/clone orchestration.

  Strings from the Python side are modelled as `List Char`; subprocess and
  HTTP side effects are modelled as event traces; outcomes of external
  calls (HTTP status codes, subprocess exit success, filesystem state) are
  inputs to the embedded functions.
-/

namespace GitAuto

/-! ## Repository name validator (create_repo, src/app.py lines 63-72) -/

/-- Membership in the character class `[a-zA-Z0-9_.-]`. -/
def isRepoChar (c : Char) : Bool :=
  ('a' ≤ c && c ≤ 'z') || ('A' ≤ c && c ≤ 'Z') || ('0' ≤ c && c ≤ '9')
    || c == '_' || c == '.' || c == '-'

/-- Python `re.match(r'^[a-zA-Z0-9_.-]+$', s)` as a Boolean: the anchor `$`
matches at the end of the string or just before one trailing newline, so a
single final `'\n'` is tolerated by the pattern. -/
def pyMatchRepoName (s : List Char) : Bool :=
  let t := if s.getLast? == some '\n' then s.dropLast else s
  !t.isEmpty && t.all isRepoChar

/-- Which validation rule of `create_repo` fired (each has its own message). -/
inductive NameError
  | invalidChars
  | startsHyphen
  | tooLong
deriving DecidableEq, Repr

/-- The validation prologue of `create_repo` (lines 63-72): regex check,
then leading-hyphen check, then length check, stopping at the first
failure; `none` means the name is accepted. -/
def validate_repo_name (s : List Char) : Option NameError :=
  if !pyMatchRepoName s then some .invalidChars
  else if s.head? == some '-' then some .startsHyphen
  else if s.length > 100 then some .tooLong
  else none

/-- Acceptance condition as the specification states it: the whole string
matches `[A-Za-z0-9_.-]+`, does not start with a hyphen, and has length at
most 100. -/
def spec_name_ok (s : List Char) : Bool :=
  (!s.isEmpty && s.all isRepoChar) && !(s.head? == some '-') && s.length ≤ 100

/-! ## Credential store (load_credentials / save_credentials / git_login,
src/app.py lines 13-38) -/

/-- The parsed content of the credentials JSON file, restricted to the
values this program reads back: the empty object and the two-field record
it writes. -/
inductive CredData
  | empty
  | record (username token : String)
deriving DecidableEq, Repr

/-- State of the credentials file on disk. `invalid` is a file that exists
but does not parse as JSON. -/
inductive CredFile
  | absent
  | invalid
  | valid (d : CredData)
deriving DecidableEq, Repr

/-- Outcome of `load_credentials`: either the value it returns, or an
uncaught exception escaping the call. -/
inductive LoadResult
  | ok (d : CredData)
  | raised
deriving DecidableEq, Repr

/-- Embeds `load_credentials` (lines 13-18): if the file exists, `json.load` it —
with no exception handler, so an unparseable file raises; otherwise return
the empty dict. -/
def load_credentials : CredFile → LoadResult
  | .absent => .ok .empty
  | .invalid => .raised
  | .valid d => .ok d

/-- Embeds `save_credentials` (lines 20-25): open the fixed path for writing
(truncating whatever was there) and dump the two-field record. -/
def save_credentials (_prev : CredFile) (username token : String) : CredFile :=
  .valid (.record username token)

/-- Inputs available to `git_login`: the credentials file and the two lines
the user would type at the prompts. -/
structure LoginEnv where
  file : CredFile
  inputUsername : String
  inputToken : String
deriving DecidableEq, Repr

/-- Outcome of `git_login`: the credential dict it returns together with
the resulting state of the credentials file, or an uncaught exception. -/
inductive LoginResult
  | ok (c : CredData) (fs : CredFile)
  | raised
deriving DecidableEq, Repr

/-- Embeds `git_login` (lines 27-38): load credentials; a non-empty dict is
returned as-is (`if credentials:`), the empty dict is falsy so the user is
prompted for username and token, which are saved and returned. No check
rejects empty input. -/
def git_login (env : LoginEnv) : LoginResult :=
  match load_credentials env.file with
  | .raised => .raised
  | .ok (.record u t) => .ok (.record u t) env.file
  | .ok .empty =>
      .ok (.record env.inputUsername env.inputToken)
        (save_credentials env.file env.inputUsername env.inputToken)

/-- A credential record has both fields non-empty (vacuously true when no
record is present). -/
def credRecordNonEmpty : CredData → Bool
  | .empty => true
  | .record u t => !(u == "") && !(t == "")

/-- The record stored in the credentials file, if any, has both fields
non-empty. -/
def fileRecordNonEmpty : CredFile → Bool
  | .valid d => credRecordNonEmpty d
  | _ => true

/-! ## Push operation (execute_command / push_repo, src/app.py
lines 41-46 and 164-185) -/

/-- The git subcommands `push_repo` may spawn. -/
inductive GitCmd
  | diffQuiet
  | diffCached
  | addAll
  | commit
  | push
deriving DecidableEq, Repr

/-- Observable events of `push_repo`: a subprocess being spawned, or one of
its printed messages. -/
inductive PushEv
  | ran (c : GitCmd)
  | msgNotGitRepo
  | msgNoChanges
  | msgCmdError (c : GitCmd)
deriving DecidableEq, Repr

/-- Embeds `execute_command` (lines 41-46): run the subprocess; on non-zero exit
catch `CalledProcessError` and print an error. It never re-raises, so the
caller cannot observe the failure. -/
def execute_command (ok : Bool) (c : GitCmd) : List PushEv :=
  .ran c :: (if ok then [] else [.msgCmdError c])

/-- External outcomes that drive `push_repo`: whether `.git` exists and the
exit status (true = exit 0) of each subprocess it may spawn. -/
structure PushEnv where
  gitDirExists : Bool
  diffQuietOk : Bool
  diffCachedOk : Bool
  addOk : Bool
  commitOk : Bool
  pushOk : Bool
deriving DecidableEq, Repr

/-- Embeds `push_repo` (lines 164-185): require `.git`; run the two diff checks
with `check=True` (the second only if the first exits 0), and if both
succeed report nothing to do. Otherwise run add, commit and push through
`execute_command`. The `try/except` around the commit step never fires
because `execute_command` already swallows `CalledProcessError`, so push
runs regardless of the commit outcome. -/
def push_repo (env : PushEnv) : List PushEv :=
  if !env.gitDirExists then [.msgNotGitRepo]
  else if env.diffQuietOk && env.diffCachedOk then
    [.ran .diffQuiet, .ran .diffCached, .msgNoChanges]
  else
    (if env.diffQuietOk then [.ran .diffQuiet, .ran .diffCached]
     else [.ran .diffQuiet])
      ++ execute_command env.addOk .addAll
      ++ execute_command env.commitOk .commit
      ++ execute_command env.pushOk .push

/-! ## Delete operation (delete_repo, src/app.py lines 120-147) -/

/-- The delete-specific name check of `delete_repo` (lines 122-127) as one
predicate: `true` means the name is rejected before any network call. -/
def delete_name_rejected (name : List Char) : Bool :=
  name.isEmpty || name.contains '/' || name.contains '\\'
    || name == ['.'] || name == ['.', '.']

/-- Observable events of `delete_repo`. -/
inductive DeleteEv
  | msgEmptyName
  | msgInvalidName
  | httpDelete
  | msgDeleted
  | rmtree
  | msgLocalDeleted
  | msgNotDir
  | msgRmError
  | msgApiError (status : Nat)
deriving DecidableEq, Repr

/-- External outcomes driving `delete_repo`: the HTTP status of the DELETE
request, the state of the local path of that name, and whether `rmtree`
succeeds. -/
structure DeleteEnv where
  httpStatus : Nat
  localExists : Bool
  localIsDir : Bool
  rmtreeOk : Bool
deriving DecidableEq, Repr

/-- Embeds `delete_repo` (lines 120-147): validate the name, log in (an uncaught
login exception yields `none`), issue the DELETE; on 204, remove the local
directory of that name if it exists and is a directory (removal errors are
caught); on any other status, report the error and touch nothing local. -/
def delete_repo (name : List Char) (lenv : LoginEnv) (env : DeleteEnv) :
    Option (List DeleteEv) :=
  if name.isEmpty then some [.msgEmptyName]
  else if name.contains '/' || name.contains '\\'
      || name == ['.'] || name == ['.', '.'] then some [.msgInvalidName]
  else
    match git_login lenv with
    | .raised => none
    | .ok _ _ => some (
        .httpDelete ::
          (if env.httpStatus == 204 then
            .msgDeleted ::
              (if env.localExists then
                (if env.localIsDir then
                  .rmtree ::
                    (if env.rmtreeOk then [.msgLocalDeleted] else [.msgRmError])
                 else [.msgNotDir])
               else [])
           else [.msgApiError env.httpStatus]))

/-! ## Create operation (repo_exists / create_repo / auto_clone,
src/app.py lines 48-118) -/

/-- Observable events of `create_repo` (including the `auto_clone` tail). -/
inductive CreateEv
  | msgNameError (e : NameError)
  | httpGet
  | msgRemoteExists
  | promptFolderExists
  | msgAborted
  | httpPost
  | msgCreated
  | gitClone
  | chdirThenQuit
  | msgCloneFailed
  | msgLinkInstructions
  | msgCreateError (status : Nat)
deriving DecidableEq, Repr

/-- External outcomes driving `create_repo`: status of the existence GET,
whether a local folder of that name exists, the user's answer to the
proceed-anyway prompt, the status of the creation POST, and whether the
clone subcommand produced the folder. -/
structure CreateEnv where
  lookupStatus : Nat
  folderExists : Bool
  confirmYes : Bool
  postStatus : Nat
  cloneOk : Bool
deriving DecidableEq, Repr

/-- Embeds `create_repo` (lines 61-102): validate the name; `repo_exists` logs in
and issues the GET (an uncaught login exception yields `none`); a 200 reply
aborts; an existing local folder prompts for confirmation and aborts unless
the answer is yes; otherwise POST the creation request; on 201, clone into
a fresh folder (entering it and stopping the script) or print manual
linking instructions when the folder already exists. -/
def create_repo (name : List Char) (lenv : LoginEnv) (env : CreateEnv) :
    Option (List CreateEv) :=
  match validate_repo_name name with
  | some e => some [.msgNameError e]
  | none =>
    match git_login lenv with
    | .raised => none
    | .ok _ _ => some (
        .httpGet ::
          (if env.lookupStatus == 200 then [.msgRemoteExists]
           else if env.folderExists && !env.confirmYes then
             [.promptFolderExists, .msgAborted]
           else
             (if env.folderExists then [.promptFolderExists] else [])
               ++ .httpPost ::
                 (if env.postStatus == 201 then
                   .msgCreated ::
                     (if !env.folderExists then
                       .gitClone ::
                         (if env.cloneOk then [.chdirThenQuit]
                          else [.msgCloneFailed])
                      else [.msgLinkInstructions])
                  else [.msgCreateError env.postStatus])))

/-! ## Public clone destination name (clone_public_repo, src/app.py
lines 187-206) -/

/-- Python `s.replace(".git", "")`: delete every left-to-right
non-overlapping occurrence of the substring ".git". -/
def stripDotGitAll : List Char → List Char
  | '.' :: 'g' :: 'i' :: 't' :: rest => stripDotGitAll rest
  | c :: rest => c :: stripDotGitAll rest
  | [] => []

/-- Python `url.split("/")[-1]`: the part of the string after its last
`'/'` (the whole string when there is none). -/
def lastSegment (s : List Char) : List Char :=
  s.foldl (fun acc c => if c == '/' then [] else acc ++ [c]) []

/-- The destination folder name `clone_public_repo` checks and enters
(line 198): `repo_url.split("/")[-1].replace(".git", "")`. -/
def clone_public_repo_name (url : List Char) : List Char :=
  stripDotGitAll (lastSegment url)

/-- Modelled from the spec: the folder the clone subcommand itself creates,
named by stripping only a single trailing ".git" suffix from the URL's last
segment (the version-control tool is an external collaborator, absent from
src/). -/
def cloneToolFolderName (url : List Char) : List Char :=
  let seg := lastSegment url
  if seg.reverse.take 4 == ['t', 'i', 'g', '.'] then seg.dropLast.dropLast.dropLast.dropLast
  else seg

/-- C1: the validator used by create accepts a string iff every character is
in `[A-Za-z0-9_.-]`, it does not start with a hyphen, and its length is at
most 100. REFUTED ON THE CODE: the string "abc\n" contains `'\n'`, which is
outside the class, so the spec rejects it; but `re.match(r'^...$')` lets `$`
match before the trailing newline, so the code accepts it. -/
theorem create_validator_accepts_trailing_newline :
    validate_repo_name ('a' :: 'b' :: 'c' :: '\n' :: []) = none ∧
      spec_name_ok ('a' :: 'b' :: 'c' :: '\n' :: []) = false := by
  constructor <;> rfl

/-- C2: on a repository with uncommitted changes where the commit
subprocess exits non-zero, `push_repo` still spawns the push subprocess
after reporting the commit error — `execute_command` swallows
`CalledProcessError`, so the abort-before-push handler is dead code. -/
theorem push_runs_after_failed_commit :
    push_repo ⟨true, false, true, true, false, true⟩ =
      [.ran .diffQuiet, .ran .addAll, .ran .commit, .msgCmdError .commit, .ran .push] ∧
      PushEv.ran .push ∈ push_repo ⟨true, false, true, true, false, true⟩ := by
  constructor <;> decide

/-- C3 counterexample: when the credentials file exists but cannot be
parsed as JSON, `load_credentials` raises instead of returning the empty
record, contradicting the claim that it returns an empty value in every
non-readable case and never raises. -/
theorem load_raises_on_unparseable_file :
    load_credentials CredFile.invalid = LoadResult.raised ∧
      load_credentials CredFile.invalid ≠ LoadResult.ok CredData.empty := by
  constructor <;> decide

/-- C3 amended: `load_credentials` returns the persisted record when the
file exists and parses, returns the empty record when the file is absent,
and raises (propagates the parse error) when the file exists but is not
valid JSON. -/
theorem load_credentials_cases :
    load_credentials CredFile.absent = LoadResult.ok CredData.empty ∧
      (∀ d, load_credentials (CredFile.valid d) = LoadResult.ok d) ∧
      load_credentials CredFile.invalid = LoadResult.raised :=
  ⟨rfl, fun _ => rfl, rfl⟩

/-- C4: in any run of `delete_repo`, the local `rmtree` removal happens
only when the DELETE request returned 204 and a local directory of that
name exists; any non-204 status leaves the local filesystem untouched. -/
theorem delete_removes_only_on_204_and_dir (name : List Char) (lenv : LoginEnv)
    (env : DeleteEnv) (tr : List DeleteEv)
    (h : delete_repo name lenv env = some tr) :
    (DeleteEv.rmtree ∈ tr →
        env.httpStatus = 204 ∧ env.localExists = true ∧ env.localIsDir = true) ∧
      (env.httpStatus ≠ 204 → DeleteEv.rmtree ∉ tr) := by
  obtain ⟨s, le, ld, rk⟩ := env
  unfold delete_repo at h
  split at h
  · cases h; constructor <;> intro h' <;> simp_all
  · split at h
    · cases h; constructor <;> intro h' <;> simp_all
    · cases hg : git_login lenv <;> rw [hg] at h
      · cases h
        by_cases h204 : s = 204
        · subst h204
          cases le <;> cases ld <;> cases rk <;>
            constructor <;> intro h' <;> simp_all
        · rw [if_neg (by simpa using h204)]
          constructor <;> intro h' <;> simp_all
      · cases h

/-- Witness for C4 at a concrete run: name "x", a readable credential
file, DELETE answered with 500 while a local directory exists. -/
theorem delete_removes_only_on_204_and_dir_witness :
    DeleteEv.rmtree ∉ ([DeleteEv.httpDelete, DeleteEv.msgApiError 500] : List DeleteEv) :=
  (delete_removes_only_on_204_and_dir ['x']
      ⟨CredFile.valid (CredData.record "alice" "tok123"), "", ""⟩
      ⟨500, true, true, true⟩
      [DeleteEv.httpDelete, DeleteEv.msgApiError 500] rfl).2 (by decide)

/-- C5: saving a credential pair fully overwrites the credentials file
regardless of its prior state, and loading afterwards returns exactly the
saved pair. -/
theorem save_then_load_round_trip (prev : CredFile) (username token : String) :
    save_credentials prev username token = CredFile.valid (CredData.record username token) ∧
      load_credentials (save_credentials prev username token) =
        LoadResult.ok (CredData.record username token) :=
  ⟨rfl, rfl⟩

/-- C6: for every name the validator accepts, when the existence lookup
answers 200 `create_repo` reports that the repository exists and never
issues the creation POST. -/
theorem create_aborts_without_post_when_remote_exists (name : List Char)
    (lenv : LoginEnv) (env : CreateEnv) (tr : List CreateEv)
    (hvalid : validate_repo_name name = none)
    (h200 : env.lookupStatus = 200)
    (h : create_repo name lenv env = some tr) :
    CreateEv.msgRemoteExists ∈ tr ∧ CreateEv.httpPost ∉ tr := by
  unfold create_repo at h
  rw [hvalid] at h
  cases hg : git_login lenv <;> rw [hg] at h
  · cases h
    rw [if_pos (by simp [h200])]
    simp
  · cases h

/-- Witness for C6 at a concrete run: name "x", a readable credential
file, existence lookup answered with 200. -/
theorem create_aborts_without_post_witness :
    CreateEv.msgRemoteExists ∈ ([CreateEv.httpGet, CreateEv.msgRemoteExists] : List CreateEv) ∧
      CreateEv.httpPost ∉ ([CreateEv.httpGet, CreateEv.msgRemoteExists] : List CreateEv) :=
  create_aborts_without_post_when_remote_exists ['x']
    ⟨CredFile.valid (CredData.record "alice" "tok123"), "", ""⟩
    ⟨200, false, false, 201, true⟩
    [CreateEv.httpGet, CreateEv.msgRemoteExists] (by decide) rfl rfl

/-- C7: when `.git` exists and both diff checks exit 0, `push_repo` runs
exactly the two diff checks, reports that there is nothing to commit, and
spawns no add, commit or push subprocess. -/
theorem push_no_changes_spawns_nothing (env : PushEnv)
    (hg : env.gitDirExists = true) (h1 : env.diffQuietOk = true)
    (h2 : env.diffCachedOk = true) :
    push_repo env = [.ran .diffQuiet, .ran .diffCached, .msgNoChanges] ∧
      PushEv.ran .addAll ∉ push_repo env ∧
      PushEv.ran .commit ∉ push_repo env ∧
      PushEv.ran .push ∉ push_repo env := by
  obtain ⟨g, d1, d2, a, c, p⟩ := env
  simp only at hg h1 h2
  subst hg h1 h2
  refine ⟨by simp [push_repo], ?_, ?_, ?_⟩ <;> simp [push_repo]

/-- Witness for C7 at a concrete run with every subprocess succeeding. -/
theorem push_no_changes_spawns_nothing_witness :
    push_repo ⟨true, true, true, true, true, true⟩ =
        [.ran .diffQuiet, .ran .diffCached, .msgNoChanges] ∧
      PushEv.ran .addAll ∉ push_repo ⟨true, true, true, true, true, true⟩ ∧
      PushEv.ran .commit ∉ push_repo ⟨true, true, true, true, true, true⟩ ∧
      PushEv.ran .push ∉ push_repo ⟨true, true, true, true, true, true⟩ :=
  push_no_changes_spawns_nothing ⟨true, true, true, true, true, true⟩ rfl rfl rfl

/-- C8: the delete-specific validation rejects exactly the empty name,
names containing a path separator, and the names "." and ".."; in
particular it rejects "..", ".", "a/b", "a\\b" and "" and accepts
"my-repo_1.0". -/
theorem delete_name_validation_exact :
    (∀ name : List Char, delete_name_rejected name = true ↔
        (name = [] ∨ '/' ∈ name ∨ '\\' ∈ name ∨ name = ['.'] ∨ name = ['.', '.'])) ∧
      delete_name_rejected ['.', '.'] = true ∧
      delete_name_rejected ['.'] = true ∧
      delete_name_rejected ['a', '/', 'b'] = true ∧
      delete_name_rejected ['a', '\\', 'b'] = true ∧
      delete_name_rejected [] = true ∧
      delete_name_rejected ['m', 'y', '-', 'r', 'e', 'p', 'o', '_', '1', '.', '0'] = false := by
  refine ⟨fun name => ?_, by decide, by decide, by decide, by decide, by decide, by decide⟩
  simp only [delete_name_rejected, Bool.or_eq_true, List.isEmpty_iff,
    List.elem_iff, beq_iff_eq]
  tauto

/-- C9 counterexample: the login prompt accepts empty input; with no
credentials file and empty answers, `git_login` creates and persists a
record whose fields are both empty, violating the non-emptiness
invariant. -/
theorem login_persists_empty_credentials :
    git_login ⟨CredFile.absent, "", ""⟩ =
        LoginResult.ok (CredData.record "" "") (CredFile.valid (CredData.record "" "")) ∧
      credRecordNonEmpty (CredData.record "" "") = false := by
  constructor <;> decide

/-- C9 amended: provided the prompted inputs are non-empty and any record
already stored in the credentials file has non-empty fields, every
credential `git_login` returns or persists has non-empty username and
token — the code itself performs no emptiness check. -/
theorem login_preserves_nonempty_fields (env : LoginEnv)
    (hfile : fileRecordNonEmpty env.file = true)
    (hu : env.inputUsername ≠ "") (ht : env.inputToken ≠ "")
    (c : CredData) (fs : CredFile) (h : git_login env = LoginResult.ok c fs) :
    credRecordNonEmpty c = true ∧ fileRecordNonEmpty fs = true := by
  obtain ⟨f, iu, it⟩ := env
  simp only at hfile hu ht
  cases f with
  | absent =>
      simp only [git_login, load_credentials, save_credentials] at h
      cases h
      simp_all [credRecordNonEmpty, fileRecordNonEmpty]
  | invalid => simp [git_login, load_credentials] at h
  | valid d =>
      cases d with
      | empty =>
          simp only [git_login, load_credentials, save_credentials] at h
          cases h
          simp_all [credRecordNonEmpty, fileRecordNonEmpty]
      | record u t =>
          simp only [git_login, load_credentials] at h
          cases h
          simp_all [fileRecordNonEmpty]

/-- Witness for C9 (amended) at a concrete run: no credentials file and
non-empty prompted inputs. -/
theorem login_preserves_nonempty_fields_witness :
    credRecordNonEmpty (CredData.record "alice" "tok123") = true ∧
      fileRecordNonEmpty (CredFile.valid (CredData.record "alice" "tok123")) = true :=
  login_preserves_nonempty_fields ⟨CredFile.absent, "alice", "tok123"⟩ rfl
    (by decide) (by decide) (CredData.record "alice" "tok123")
    (CredFile.valid (CredData.record "alice" "tok123")) (by decide)

/-- C10: the destination name `clone_public_repo` checks is the last URL
segment with every occurrence of ".git" deleted, so for a URL whose last
segment is "my.github.git" it checks "myhub" while the clone tool creates
"my.github" — the two differ. -/
theorem clone_checked_name_deletes_every_dot_git :
    clone_public_repo_name ("https://github.com/u/my.github.git".toList) = "myhub".toList ∧
      cloneToolFolderName ("https://github.com/u/my.github.git".toList) = "my.github".toList ∧
      clone_public_repo_name ("https://github.com/u/my.github.git".toList) ≠
        cloneToolFolderName ("https://github.com/u/my.github.git".toList) := by
  refine ⟨by decide, by decide, by decide⟩

end GitAuto
